import Mathlib

/-!
Verification development for the SSL_ParkinsonsDisease frontend.

The repository is a TypeScript/React clinical dashboard.  This file gives a
shallow embedding of the pieces of the code that the verified properties
talk about:

  * the severity label/code mapping and the backend/frontend patient
    conversion helpers of src/services/api.ts,
  * the error handling of ApiService.request,
  * the request (endpoint, HTTP method, body) built by each ApiService
    method, by the video-upload handler and by the health check,
  * the form-validation logic of the patient forms,
  * the recording state machine of the VideoRecording page (timer tick,
    start, pause, stop, reset), and its formatTime helper,
  * the AVAILABLE_TESTS constants of the two copies of types/patient.ts.

JavaScript strings are modelled as Lean Strings (lists of Chars);
JavaScript falsiness of a string is the test against "".  JSON values are
an inductive JsonVal.  The browser built-ins JSON.stringify, JSON.parse,
Number(...) and parseInt(...) are not part of the repository, so they are
parameters of the model, collected in a JsPlatform record.  Date values
(createdAt/updatedAt fields, never read back by the code under
consideration) are omitted from the records.
-/

namespace SSLPD

/-- JSON values, as produced by response.json() in the browser.  Numbers
are modelled as integers (no claim depends on fractional values). -/
inductive JsonVal where
  | null
  | bool (b : Bool)
  | num (n : Int)
  | str (s : String)
  | arr (xs : List JsonVal)
  | obj (fields : List (String × JsonVal))

/-- The browser built-ins the code calls but which live outside the
repository: JSON.stringify, JSON.parse (returning .error when it would
throw), Number(-) coercion and parseInt(-). -/
structure JsPlatform where
  stringify : JsonVal → String
  parse : String → Except String JsonVal
  toNumber : String → JsonVal
  parseIntFn : String → Int

/-- A degenerate platform instance, used to evaluate the model on concrete
inputs in the witness theorems (none of the verified properties depends on
the behaviour of the platform functions). -/
def jsPlatform0 : JsPlatform where
  stringify := fun _ => "{}"
  parse := fun _ => Except.error "SyntaxError"
  toNumber := fun _ => JsonVal.num 0
  parseIntFn := fun _ => 0

/-- JavaScript `a || b` on strings: "" is the only falsy string. -/
def jsOr (a b : String) : String := if a = "" then b else a

/-- JavaScript `a || b` on numbers (0 is falsy; NaN is not modelled). -/
def jsOrInt (a b : Int) : Int := if a = 0 then b else a

/-- JavaScript `x || d` where x is a possibly-undefined string property. -/
def jsOrOpt (a : Option String) (d : String) : String := jsOr (a.getD "") d

/-- JavaScript String.prototype.toLowerCase, restricted to the ASCII
letters that actually occur in the severity codes. -/
def jsToLower (s : String) : String := String.mk (s.data.map Char.toLower)

/-- The WhiteSpace and LineTerminator code points that
String.prototype.trim removes (ECMA-262). -/
def jsWhitespaceChar (c : Char) : Bool :=
  c ∈ [' ', '\t', '\n', '\x0b', '\x0c', '\r'] ||
  c.toNat ∈ [0xa0, 0x1680, 0x2000, 0x2001, 0x2002, 0x2003, 0x2004, 0x2005,
             0x2006, 0x2007, 0x2008, 0x2009, 0x200a, 0x2028, 0x2029,
             0x202f, 0x205f, 0x3000, 0xfeff]

/-- Leading-whitespace removal on the character list. -/
def jsTrimLeftList (l : List Char) : List Char := l.dropWhile jsWhitespaceChar

/-- Trailing-whitespace removal on the character list. -/
def jsTrimRightList (l : List Char) : List Char :=
  (l.reverse.dropWhile jsWhitespaceChar).reverse

/-- JavaScript String.prototype.trim on the character list. -/
def jsTrimList (l : List Char) : List Char := jsTrimRightList (jsTrimLeftList l)

/-- JavaScript String.prototype.trim. -/
def jsTrim (s : String) : String := String.mk (jsTrimList s.data)

/-- JavaScript truthiness of a JSON value. -/
def jsTruthy : JsonVal → Bool
  | .null => false
  | .bool b => b
  | .num n => n != 0
  | .str s => s != ""
  | .arr _ => true
  | .obj _ => true

/-- Property lookup `v.key` returning none for undefined (absent key, or
receiver without properties). -/
def jsonLookup (v : JsonVal) (key : String) : Option JsonVal :=
  match v with
  | .obj fields => fields.lookup key
  | _ => none

mutual

/-- String(v), as performed by template literals and new Error(v): arrays
join their elements with "," (null elements become empty), plain objects
render as [object Object]. -/
def jsTemplateStr : JsonVal → String
  | .null => "null"
  | .bool true => "true"
  | .bool false => "false"
  | .num n => toString n
  | .str s => s
  | .arr xs => jsArrayJoin xs
  | .obj _ => "[object Object]"

/-- Array.prototype.join with separator ",", converting each element with
String(-) and rendering null as the empty string. -/
def jsArrayJoin : List JsonVal → String
  | [] => ""
  | [JsonVal.null] => ""
  | [x] => jsTemplateStr x
  | JsonVal.null :: xs => "," ++ jsArrayJoin xs
  | x :: xs => jsTemplateStr x ++ "," ++ jsArrayJoin xs

end

namespace Api

/-- src/services/api.ts, mapSeverity: map severity from backend to
frontend.  Unknown codes fall through to the default branch. -/
def mapSeverity (backendSeverity : String) : String :=
  let s := jsToLower backendSeverity
  if s = "low" then "Mild"
  else if s = "medium" then "Moderate"
  else if s = "high" then "Severe"
  else "Mild"

/-- src/services/api.ts, mapSeverityToBackend: map severity from frontend
to backend. -/
def mapSeverityToBackend (frontendSeverity : String) : String :=
  if frontendSeverity = "Mild" then "low"
  else if frontendSeverity = "Moderate" then "medium"
  else if frontendSeverity = "Severe" then "high"
  else "low"

/-- src/services/api.ts, interface BackendPatient.  The TypeScript
interface declares every field, but convertBackendToFrontend defends
against undefined/null values with `|| fallback`, so each field is an
Option here. -/
structure BackendPatient where
  patient_id : Option String
  name : Option String
  age : Option Int
  height : Option Int
  weight : Option Int
  lab_results : Option JsonVal
  doctors_notes : Option String
  severity : Option String

/-- The frontend patient view model produced by convertBackendToFrontend
(types/patient.ts, interface Patient).  createdAt/updatedAt (new Date())
are omitted: wall-clock values outside the model. -/
structure FrontendPatient where
  id : String
  firstName : String
  lastName : String
  recordNumber : String
  age : Int
  height : String
  weight : String
  labResults : String
  doctorNotes : String
  severity : String
deriving DecidableEq, Repr

/-- src/services/api.ts, interface BackendPatientCreate.  The lab_results
field records the result of the JSON.parse call that computes it; an
.error value marks the point where JavaScript would throw. -/
structure BackendPatientCreate where
  name : String
  age : Int
  height : String
  weight : String
  lab_results : Except String JsonVal
  doctors_notes : String
  severity : String

/-- src/services/api.ts, convertBackendToFrontend. -/
def convertBackendToFrontend (pf : JsPlatform) (p : BackendPatient) :
    FrontendPatient :=
  let name := p.name.getD ""
  let nameParts := name.data.splitOn ' '
  let firstName := jsOr (String.mk (nameParts.headD [])) ""
  let lastName := jsOr (String.mk (List.intercalate [' '] (nameParts.drop 1))) ""
  { id := jsOr (p.patient_id.getD "") ""
    firstName := firstName
    lastName := lastName
    recordNumber := jsOr (p.patient_id.getD "") ""
    age := jsOrInt (p.age.getD 0) 0
    height := toString (jsOrInt (p.height.getD 0) 0) ++ " cm"
    weight := toString (jsOrInt (p.weight.getD 0) 0) ++ " kg"
    labResults := pf.stringify (p.lab_results.getD (JsonVal.obj []))
    doctorNotes := jsOr (p.doctors_notes.getD "") ""
    severity := mapSeverity (jsOrOpt p.severity "low") }

/-- Strip every character that is not a digit or a dot:
`.replace(/[^\d.]/g, '')`. -/
def keepDigitsAndDot (s : String) : String :=
  String.mk (s.data.filter fun c => c.isDigit || c == '.')

/-- src/services/api.ts, convertFrontendToBackend. -/
def convertFrontendToBackend (pf : JsPlatform) (p : FrontendPatient) :
    BackendPatientCreate :=
  let fullName := jsTrim (jsOr p.firstName "" ++ " " ++ jsOr p.lastName "")
  let heightStr := keepDigitsAndDot (jsOr p.height "")
  let weightStr := keepDigitsAndDot (jsOr p.weight "")
  { name := fullName
    age := p.age
    height := jsOr heightStr "0"
    weight := jsOr weightStr "0"
    lab_results := if p.labResults = "" then Except.ok (JsonVal.obj [])
                   else pf.parse p.labResults
    doctors_notes := jsOr p.doctorNotes ""
    severity := mapSeverityToBackend p.severity }

/-- src/services/api.ts, interface ApiResponse. -/
structure ApiResponse where
  success : Bool
  data : Option JsonVal := none
  error : Option String := none

/-- Outcome of a single browser fetch call: either the promise rejects
with an Error whose message is msg, or a response arrives with its ok
flag, status code, and the result of response.json() (.error being a
rejected body parse with the SyntaxError message). -/
inductive FetchOutcome where
  | reject (msg : String)
  | resp (ok : Bool) (status : Nat) (body : Except String JsonVal)

/-- The field prefix `err.loc?.join('.') || 'field'` of a validation-error
entry.  A present loc that is not an array has no join method: the .error
value carries the TypeError JavaScript would throw there. -/
def locField (err : JsonVal) : Except String String :=
  match jsonLookup err "loc" with
  | none => Except.ok "field"
  | some JsonVal.null => Except.ok "field"
  | some (JsonVal.arr xs) => Except.ok (String.intercalate "." (xs.map jsTemplateStr))
  | some _ => Except.error "TypeError: err.loc.join is not a function"

/-- The string interpolated for `${err.msg}` (absent property renders as
undefined). -/
def msgField (err : JsonVal) : String :=
  match jsonLookup err "msg" with
  | some v => jsTemplateStr v
  | none => "undefined"

/-- One entry of the validation-error array in ApiService.request:
`${field}: ${err.msg}`. -/
def requestEntryMsg (err : JsonVal) : Except String String :=
  (locField err).map fun field => field ++ ": " ++ msgField err

/-- The errorMessage computed by ApiService.request for a non-OK response
whose parsed (or defaulted) body is errorData.  An .error value is an
exception raised while computing it; either way the outer catch receives
an Error. -/
def requestErrorMessage (pf : JsPlatform) (status : Nat) (errorData : JsonVal) :
    Except String String :=
  let dflt := "HTTP error! status: " ++ toString status
  match jsonLookup errorData "detail" with
  | some d =>
    if jsTruthy d then
      match d with
      | JsonVal.arr errs =>
          (errs.mapM requestEntryMsg).map (String.intercalate ", ")
      | JsonVal.obj fields => Except.ok (pf.stringify (JsonVal.obj fields))
      | _ => Except.ok (jsTemplateStr d)
    else
      match jsonLookup errorData "message" with
      | some m => if jsTruthy m then Except.ok (jsTemplateStr m) else Except.ok dflt
      | none => Except.ok dflt
  | none =>
    match jsonLookup errorData "message" with
    | some m => if jsTruthy m then Except.ok (jsTemplateStr m) else Except.ok dflt
    | none => Except.ok dflt

/-- src/services/api.ts, ApiService.request.  The function performs one
fetch (whose outcome is the parameter `out`) and never lets an exception
escape: every path funnels into the catch that returns success := false.
The second component counts the fetch calls performed, which is one on
every path. -/
def request (pf : JsPlatform) (baseUrl endpoint : String) (out : FetchOutcome) :
    ApiResponse × Nat :=
  let _url := baseUrl ++ endpoint
  let result : ApiResponse :=
    match out with
    | FetchOutcome.reject msg => { success := false, error := some msg }
    | FetchOutcome.resp ok status body =>
      if ok then
        match body with
        | Except.ok v => { success := true, data := some v }
        | Except.error e => { success := false, error := some e }
      else
        let errorData : JsonVal := (body.toOption).getD (JsonVal.obj [])
        let m := match requestErrorMessage pf status errorData with
                 | Except.ok m => m
                 | Except.error e => e
        { success := false, error := some m }
  (result, 1)

/-- A request issued by an ApiService method: endpoint, HTTP method and
optional JSON body.  Methods that pass no `method` option inherit the
fetch default GET. -/
structure ApiCall where
  endpoint : String
  method : String
  body : Option String
deriving DecidableEq, Repr

/-- src/services/api.ts, API_BASE_URL. -/
def API_BASE_URL : String := "http://localhost:8000"

/-- getPatients: endpoint built from the skip/limit parameters, which
default to 0 and 100. -/
def getPatientsCall (skip : Nat := 0) (limit : Nat := 100) : ApiCall :=
  { endpoint := "/patients/?skip=" ++ toString skip ++ "&limit=" ++ toString limit
    method := "GET", body := none }

/-- getPatient: GET /patients/{id}. -/
def getPatientCall (patientId : String) : ApiCall :=
  { endpoint := "/patients/" ++ patientId, method := "GET", body := none }

/-- deletePatient: DELETE /patients/{id}. -/
def deletePatientCall (patientId : String) : ApiCall :=
  { endpoint := "/patients/" ++ patientId, method := "DELETE", body := none }

/-- getPatientTests: GET /patients/{id}/tests. -/
def getPatientTestsCall (patientId : String) : ApiCall :=
  { endpoint := "/patients/" ++ patientId ++ "/tests", method := "GET", body := none }

/-- addPatientTest: POST /patients/{id}/tests with JSON.stringify(testData)
as body. -/
def addPatientTestCall (pf : JsPlatform) (patientId : String)
    (testData : JsonVal) : ApiCall :=
  { endpoint := "/patients/" ++ patientId ++ "/tests", method := "POST"
    body := some (pf.stringify testData) }

end Api

/-- A fetch target outside ApiService: absolute URL and HTTP method. -/
structure HttpTarget where
  url : String
  method : String
deriving DecidableEq, Repr

namespace UseApiStatus

/-- hooks/use-api-status.ts, checkConnection: the health probe
fetch('http://localhost:8000/health') with no options, hence the fetch
default method GET. -/
def healthCall : HttpTarget := { url := "http://localhost:8000/health", method := "GET" }

end UseApiStatus

/-- types/patient.ts: one entry of AVAILABLE_TESTS. -/
structure TestDef where
  id : String
  name : String
  description : String
deriving DecidableEq, Repr

namespace PatientTypes

/-- types/patient.ts (the copy with four tests): AVAILABLE_TESTS. -/
def AVAILABLE_TESTS : List TestDef :=
  [ { id := "stand-and-sit", name := "Stand and Sit Test",
      description := "Measures motor function through standing and sitting movements" },
    { id := "palm-open", name := "Palm Open Test",
      description := "Evaluates hand motor function and dexterity" },
    { id := "finger-tapping", name := "Finger Tapping Test",
      description := "Measures rapid finger tapping for motor speed and coordination" },
    { id := "fist-open-close", name := "Fist Open and Close Test",
      description := "Assesses hand opening and closing cycles for bradykinesia" } ]

end PatientTypes

namespace PatientTypesB

/-- The second copy of types/patient.ts in the repository (an earlier
snapshot with only two tests): AVAILABLE_TESTS. -/
def AVAILABLE_TESTS : List TestDef :=
  [ { id := "stand-and-sit", name := "Stand and Sit Test",
      description := "Measures motor function through standing and sitting movements" },
    { id := "palm-open", name := "Palm Open Test",
      description := "Evaluates hand motor function and dexterity" } ]

end PatientTypesB

namespace VideoRecording

/-- The video-upload request issued by handleStopRecording:
fetch('http://localhost:8000/upload-video/', { method: 'POST', body: formData }). -/
def uploadVideoCall : HttpTarget :=
  { url := "http://localhost:8000/upload-video/", method := "POST" }

/-- The component state of VideoRecording that the recording controls and
the timer effect read and write.  recorderReady mirrors whether
mediaRecorderRef.current is set (the pause/stop handlers return early
when it is null). -/
structure RecState where
  currentTestIndex : Nat
  isRecording : Bool
  isPaused : Bool
  recordingTime : Nat
  completedTests : List String
  recorderReady : Bool
deriving DecidableEq, Repr

/-- The events that drive the VideoRecording state: one timer tick of the
interval effect, and the five button handlers.  startRecording carries
whether the camera stream was available (which decides recorderReady);
stopRecording carries whether the upload succeeded (it does not affect
the state fields modelled here). -/
inductive RecEvent where
  | tick
  | startRecording (streamOk : Bool)
  | pauseToggle
  | stopRecording (uploadOk : Bool)
  | nextTest
  | reset
deriving DecidableEq, Repr

/-- `currentTest?.id || ''`: the id of the test at the current index if it
names an entry of AVAILABLE_TESTS, and '' otherwise. -/
def currentTestId (selectedTests : List String) (idx : Nat) : String :=
  let t := selectedTests.getD idx ""
  if (PatientTypes.AVAILABLE_TESTS.map TestDef.id).contains t then t else ""

/-- One step of the VideoRecording component.  The tick case embeds the
timer effect: the interval that increments recordingTime exists exactly
while isRecording && !isPaused (the effect clears it otherwise), so a tick
increments the counter only in that state.  The remaining cases are
handleStartRecording, handlePauseRecording, handleStopRecording,
handleNextTest and handleReset. -/
def recStep (selectedTests : List String) : RecEvent → RecState → RecState
  | RecEvent.tick, s =>
      if s.isRecording && !s.isPaused then
        { s with recordingTime := s.recordingTime + 1 }
      else s
  | RecEvent.startRecording streamOk, s =>
      { s with isRecording := true, isPaused := false, recordingTime := 0,
               recorderReady := streamOk }
  | RecEvent.pauseToggle, s =>
      if s.recorderReady then { s with isPaused := !s.isPaused } else s
  | RecEvent.stopRecording _, s =>
      if s.recorderReady then
        { s with isRecording := false, isPaused := false,
                 completedTests :=
                   s.completedTests ++ [currentTestId selectedTests s.currentTestIndex] }
      else s
  | RecEvent.nextTest, s =>
      if s.currentTestIndex < selectedTests.length - 1 then
        { s with currentTestIndex := s.currentTestIndex + 1, recordingTime := 0 }
      else s
  | RecEvent.reset, s =>
      { s with isRecording := false, isPaused := false, recordingTime := 0 }

/-- String.prototype.padStart with a one-character pad string. -/
def padStart (n : Nat) (c : Char) (s : String) : String :=
  if n ≤ s.length then s else String.mk (List.replicate (n - s.length) c) ++ s

/-- VideoRecording, formatTime: minutes and seconds, each zero-padded to
two characters, joined by a colon.  Number.prototype.toString renders in
decimal, which is Nat.repr for the natural recordingTime counter. -/
def formatTime (seconds : Nat) : String :=
  let mins := seconds / 60
  let secs := seconds % 60
  padStart 2 '0' (Nat.repr mins) ++ ":" ++ padStart 2 '0' (Nat.repr secs)

end VideoRecording

/-- A toast notification: title, description and variant ("default" when
the call passes no variant). -/
structure Toast where
  title : String
  description : String
  variant : String
deriving DecidableEq, Repr

/-- The toast shown by every patient form when a required field is
missing. -/
def validationToast : Toast :=
  { title := "Validation Error"
    description := "Please fill in all required fields."
    variant := "destructive" }

/-- The formData state of the patient form pages: every field is a string
(the severity select stores '' until a value is chosen). -/
structure FormState where
  firstName : String
  lastName : String
  recordNumber : String
  age : String
  height : String
  weight : String
  labResults : String
  doctorNotes : String
  severity : String
deriving DecidableEq, Repr

/-- The falsiness test of the required-field guard shared by the patient
forms: `!firstName || !lastName || !recordNumber || !age || !severity`. -/
def missingRequired (f : FormState) : Bool :=
  f.firstName = "" || f.lastName = "" || f.recordNumber = "" ||
  f.age = "" || f.severity = ""

namespace PatientForm

/-- A request issued directly by the form page: absolute URL, method and
JSON body (kept structured; the page serialises it with
JSON.stringify). -/
structure PageRequest where
  url : String
  method : String
  bodyJson : JsonVal

/-- What a run of handleSubmit produced: the toasts shown, the HTTP
requests issued, and the route navigated to (none when staying put). -/
structure SubmitResult where
  toasts : List Toast
  requests : List PageRequest
  navigatedTo : Option String

/-- The message built in the catch block of pages/PatientForm.tsx when the
thrown value is the parsed error body `data`: strings pass through,
objects with a detail array format each entry as
`${e.loc?.join('.') || 'field'}: ${e.msg}` joined by newlines, other
objects and arrays are JSON.stringified, everything else keeps 'Unknown
error'.  An .error result is the TypeError thrown inside the catch block
(which would escape the handler). -/
def catchMessage (pf : JsPlatform) : JsonVal → Except String String
  | JsonVal.str s => Except.ok s
  | JsonVal.obj fields =>
      match List.lookup "detail" fields with
      | some (JsonVal.arr errs) =>
          (errs.mapM Api.requestEntryMsg).map (String.intercalate "\n")
      | _ => Except.ok (pf.stringify (JsonVal.obj fields))
  | JsonVal.arr xs => Except.ok (pf.stringify (JsonVal.arr xs))
  | _ => Except.ok "Unknown error"

/-- src/pages/PatientForm.tsx, handleSubmit.  Validation failure shows the
destructive toast and returns before any fetch; otherwise one POST/PUT is
issued and the response drives the success or error toast.  An .error
result is an exception escaping the handler (only reachable from the
catch block's own TypeError). -/
def handleSubmit (pf : JsPlatform) (isEditing : Bool) (id : String)
    (f : FormState) (net : Api.FetchOutcome) : Except String SubmitResult :=
  if missingRequired f then
    Except.ok { toasts := [validationToast], requests := [], navigatedTo := none }
  else
    let payload : JsonVal := JsonVal.obj
      [ ("name", JsonVal.str (f.firstName ++ " " ++ f.lastName)),
        ("age", pf.toNumber f.age),
        ("height", JsonVal.str f.height),
        ("weight", JsonVal.str f.weight),
        ("lab_results", JsonVal.obj [("notes", JsonVal.str (jsOr f.labResults ""))]),
        ("doctors_notes", JsonVal.str (jsOr f.doctorNotes "")),
        ("severity", JsonVal.str f.severity) ]
    let url := if isEditing then "http://localhost:8000/patients/" ++ id
               else "http://localhost:8000/patients/"
    let req : PageRequest :=
      { url := url, method := if isEditing then "PUT" else "POST", bodyJson := payload }
    match net with
    | Api.FetchOutcome.reject msg =>
        Except.ok { toasts := [⟨"Error", msg, "destructive"⟩]
                    requests := [req], navigatedTo := none }
    | Api.FetchOutcome.resp ok _ body =>
      match body with
      | Except.error e =>
          Except.ok { toasts := [⟨"Error", e, "destructive"⟩]
                      requests := [req], navigatedTo := none }
      | Except.ok data =>
        if ok then
          Except.ok
            { toasts := [⟨(if isEditing then "Patient Updated" else "Patient Created"),
                f.firstName ++ " " ++ f.lastName ++ " has been " ++
                  (if isEditing then "updated" else "added") ++ ".", "default"⟩]
              requests := [req]
              navigatedTo := some (if isEditing then "/patient/" ++ id else "/") }
        else
          match catchMessage pf data with
          | Except.ok m =>
              Except.ok { toasts := [⟨"Error", m, "destructive"⟩]
                          requests := [req], navigatedTo := none }
          | Except.error e => Except.error e

end PatientForm

namespace Api

/-- src/services/api.ts, updatePatient: the BackendPatientUpdate body
assembled field by field from the update data (a FrontendPatient-shaped
object whose age and doctorNotes are always defined).  The labResults
parse failure is caught inside updatePatient and falls back to
`{ notes: labResults }`. -/
def updatePatientBody (pf : JsPlatform) (u : FrontendPatient) : JsonVal :=
  JsonVal.obj (
    (if u.firstName ≠ "" || u.lastName ≠ "" then
      [("name", JsonVal.str (jsTrim (jsOr u.firstName "" ++ " " ++ jsOr u.lastName "")))]
     else []) ++
    [("age", JsonVal.num u.age)] ++
    (if u.height ≠ "" then
      [("height", JsonVal.str (jsOr (keepDigitsAndDot u.height) "0"))] else []) ++
    (if u.weight ≠ "" then
      [("weight", JsonVal.str (jsOr (keepDigitsAndDot u.weight) "0"))] else []) ++
    (if u.labResults ≠ "" then
      [("lab_results",
        match pf.parse u.labResults with
        | Except.ok v => v
        | Except.error _ => JsonVal.obj [("notes", JsonVal.str u.labResults)])]
     else []) ++
    [("doctors_notes", JsonVal.str u.doctorNotes)] ++
    (if u.severity ≠ "" then
      [("severity", JsonVal.str (mapSeverityToBackend u.severity))] else []))

/-- updatePatient: PUT /patients/{id} with the assembled update body. -/
def updatePatientCall (pf : JsPlatform) (patientId : String)
    (u : FrontendPatient) : ApiCall :=
  { endpoint := "/patients/" ++ patientId, method := "PUT"
    body := some (pf.stringify (updatePatientBody pf u)) }

/-- The JSON object that JSON.stringify serialises for a
BackendPatientCreate whose lab_results parse succeeded with lr. -/
def backendCreateJson (b : BackendPatientCreate) (lr : JsonVal) : JsonVal :=
  JsonVal.obj
    [ ("name", JsonVal.str b.name), ("age", JsonVal.num b.age),
      ("height", JsonVal.str b.height), ("weight", JsonVal.str b.weight),
      ("lab_results", lr), ("doctors_notes", JsonVal.str b.doctors_notes),
      ("severity", JsonVal.str b.severity) ]

/-- createPatient: POST /patients/ with the converted patient as body. -/
def createPatientCall (pf : JsPlatform) (b : BackendPatientCreate)
    (lr : JsonVal) : ApiCall :=
  { endpoint := "/patients/", method := "POST"
    body := some (pf.stringify (backendCreateJson b lr)) }

end Api

namespace PatientFormV2

/-- Outcome of the apiService-based handleSubmit: toasts, ApiService
requests issued, navigation target, and the loading flag (reset to false
by the finally block on every path). -/
structure SubmitResult where
  toasts : List Toast
  requests : List Api.ApiCall
  navigatedTo : Option String
  loading : Bool

/-- The tail of the happy path shared by the create and update branches:
a success toast plus navigation when response.success, otherwise the
error toast with `response.error || "Failed to save patient"`. -/
def finish (f : FormState) (isEditing : Bool) (id : String)
    (calls : List Api.ApiCall) (resp : Api.ApiResponse) : SubmitResult :=
  if resp.success then
    { toasts := [⟨(if isEditing then "Patient Updated" else "Patient Created"),
        f.firstName ++ " " ++ f.lastName ++ " has been " ++
          (if isEditing then "updated" else "added") ++ " successfully.", "default"⟩]
      requests := calls
      navigatedTo := some (if isEditing then "/patient/" ++ id else "/")
      loading := false }
  else
    { toasts := [⟨"Error", jsOr (resp.error.getD "") "Failed to save patient",
        "destructive"⟩]
      requests := calls, navigatedTo := none, loading := false }

/-- The second PatientForm page (the apiService-based copy), handleSubmit.
Validation failure toasts and returns with loading reset and no request.
Otherwise the patientData object is built (height, weight and labResults
falling back to '170 cm', '70 kg' and '{}') and handed to
apiService.updatePatient or createPatient; isEditing is `!!id`, so the
source guard `isEditing && id` is isEditing here.  A labResults string
JSON.parse would throw on inside createPatient is caught by the catch
block, which shows the connection-failure toast. -/
def handleSubmit (pf : JsPlatform) (isEditing : Bool) (id : String)
    (f : FormState) (net : Api.FetchOutcome) : SubmitResult :=
  if missingRequired f then
    { toasts := [validationToast], requests := [], navigatedTo := none,
      loading := false }
  else
    let pd : Api.FrontendPatient :=
      { id := ""  -- the source patientData object carries no id field and
                  -- convertFrontendToBackend/updatePatientBody never read it
        firstName := f.firstName, lastName := f.lastName
        recordNumber := f.recordNumber, age := pf.parseIntFn f.age
        height := jsOr f.height "170 cm", weight := jsOr f.weight "70 kg"
        labResults := jsOr f.labResults "{}"
        doctorNotes := jsOr f.doctorNotes "", severity := f.severity }
    if isEditing then
      let call := Api.updatePatientCall pf id pd
      finish f isEditing id [call] (Api.request pf Api.API_BASE_URL call.endpoint net).1
    else
      let bd := Api.convertFrontendToBackend pf pd
      match bd.lab_results with
      | Except.error _ =>
          { toasts := [⟨"Error", "Failed to connect to the server", "destructive"⟩]
            requests := [], navigatedTo := none, loading := false }
      | Except.ok lr =>
          let call := Api.createPatientCall pf bd lr
          finish f isEditing id [call]
            (Api.request pf Api.API_BASE_URL call.endpoint net).1

end PatientFormV2

namespace PatientList

/-- The quick-add modal form state of PatientList. -/
structure QuickFormState where
  firstName : String
  lastName : String
  recordNumber : String
  age : String
  severity : String
deriving DecidableEq, Repr

/-- `!firstName || !lastName || !recordNumber || !age || !severity` for
the quick-add form. -/
def missingRequiredQuick (q : QuickFormState) : Bool :=
  q.firstName = "" || q.lastName = "" || q.recordNumber = "" ||
  q.age = "" || q.severity = ""

/-- Outcome of handleQuickSubmit: toasts, the patients list state, whether
the modal stays open, and the quick-form state. -/
structure QuickSubmitResult where
  toasts : List Toast
  patients : List Api.FrontendPatient
  modalOpen : Bool
  form : QuickFormState

/-- pages/PatientList.tsx, handleQuickSubmit.  Validation failure shows
the destructive toast and leaves the patients list, the open modal and the
form untouched; otherwise the new patient is appended, the modal closes
and the form resets. -/
def handleQuickSubmit (pf : JsPlatform) (q : QuickFormState)
    (patients : List Api.FrontendPatient) : QuickSubmitResult :=
  if missingRequiredQuick q then
    { toasts := [validationToast], patients := patients, modalOpen := true,
      form := q }
  else
    let newPatient : Api.FrontendPatient :=
      { id := toString (patients.length + 1)
        firstName := q.firstName, lastName := q.lastName
        recordNumber := q.recordNumber, age := pf.parseIntFn q.age
        height := "", weight := "", labResults := "", doctorNotes := ""
        severity := q.severity }
    { toasts := [⟨"Patient Added",
        q.firstName ++ " " ++ q.lastName ++ " has been added successfully.",
        "default"⟩]
      patients := patients ++ [newPatient]
      modalOpen := false
      form := { firstName := "", lastName := "", recordNumber := "", age := "",
                severity := "" } }

end PatientList

/-! ## Verified properties -/

/-- Every output of mapSeverity is one of the three frontend labels. -/
theorem mapSeverity_mem_labels (t : String) :
    Api.mapSeverity t ∈ (["Mild", "Moderate", "Severe"] : List String) := by
  unfold Api.mapSeverity
  dsimp only
  split_ifs <;> simp

/-- C1: the severity mapping round-trips between UI labels and backend
codes: mapSeverity ∘ mapSeverityToBackend is the identity on
Mild/Moderate/Severe, and mapSeverityToBackend ∘ mapSeverity is the
identity on low/medium/high. -/
theorem severity_mapping_roundtrip (s c : String)
    (hs : s ∈ (["Mild", "Moderate", "Severe"] : List String))
    (hc : c ∈ (["low", "medium", "high"] : List String)) :
    Api.mapSeverity (Api.mapSeverityToBackend s) = s ∧
    Api.mapSeverityToBackend (Api.mapSeverity c) = c := by
  simp only [List.mem_cons, List.not_mem_nil, or_false] at hs hc
  obtain h | h | h := hs <;> obtain h2 | h2 | h2 := hc <;>
    subst h <;> subst h2 <;> exact ⟨by decide, by decide⟩

/-- Witness for C1 at the label Mild and the code low. -/
theorem severity_mapping_roundtrip_witness :
    Api.mapSeverity (Api.mapSeverityToBackend "Mild") = "Mild" ∧
    Api.mapSeverityToBackend (Api.mapSeverity "low") = "low" :=
  severity_mapping_roundtrip "Mild" "low" (by decide) (by decide)

/-- C5: convertBackendToFrontend always produces a severity in
{Mild, Moderate, Severe}, whatever the backend record holds, and
mapSeverity sends every string outside {low, medium, high} (after
lowercasing) to Mild. -/
theorem severity_is_enumeration (pf : JsPlatform) (p : Api.BackendPatient)
    (s : String)
    (h : jsToLower s ∉ (["low", "medium", "high"] : List String)) :
    (Api.convertBackendToFrontend pf p).severity ∈
      (["Mild", "Moderate", "Severe"] : List String) ∧
    Api.mapSeverity s = "Mild" := by
  constructor
  · have hsev : (Api.convertBackendToFrontend pf p).severity
        = Api.mapSeverity (jsOrOpt p.severity "low") := rfl
    rw [hsev]
    exact mapSeverity_mem_labels _
  · simp only [List.mem_cons, List.not_mem_nil, or_false, not_or] at h
    unfold Api.mapSeverity
    dsimp only
    rw [if_neg h.1, if_neg h.2.1, if_neg h.2.2]

/-- Witness for C5: a backend patient with severity "weird" (unknown code)
is mapped into the enumeration, and mapSeverity of an unknown code is
Mild. -/
theorem severity_is_enumeration_witness :
    (Api.convertBackendToFrontend jsPlatform0
      { patient_id := none, name := some "Ada Lovelace", age := some 36,
        height := some 165, weight := some 60, lab_results := none,
        doctors_notes := none, severity := some "weird" }).severity ∈
      (["Mild", "Moderate", "Severe"] : List String) ∧
    Api.mapSeverity "weird" = "Mild" :=
  severity_is_enumeration jsPlatform0
    { patient_id := none, name := some "Ada Lovelace", age := some 36,
      height := some 165, weight := some 60, lab_results := none,
      doctors_notes := none, severity := some "weird" }
    "weird" (by decide)

/-- C7: the AVAILABLE_TESTS list offers finger-tapping, palm-open and
stand-and-sit entries. -/
theorem available_tests_cover_motor_tests :
    "finger-tapping" ∈ PatientTypes.AVAILABLE_TESTS.map TestDef.id ∧
    "palm-open" ∈ PatientTypes.AVAILABLE_TESTS.map TestDef.id ∧
    "stand-and-sit" ∈ PatientTypes.AVAILABLE_TESTS.map TestDef.id := by
  decide

/-- C4: each client operation issues the documented method on the
documented path: getPatient GET /patients/{id}, getPatientTests GET
/patients/{id}/tests, addPatientTest POST /patients/{id}/tests,
deletePatient DELETE /patients/{id}, the video upload POST /upload-video/,
and the health probe GET /health. -/
theorem rest_endpoints_and_methods (patientId : String) (pf : JsPlatform)
    (testData : JsonVal) :
    (Api.getPatientCall patientId).method = "GET" ∧
    (Api.getPatientCall patientId).endpoint = "/patients/" ++ patientId ∧
    (Api.getPatientTestsCall patientId).method = "GET" ∧
    (Api.getPatientTestsCall patientId).endpoint = "/patients/" ++ patientId ++ "/tests" ∧
    (Api.addPatientTestCall pf patientId testData).method = "POST" ∧
    (Api.addPatientTestCall pf patientId testData).endpoint
      = "/patients/" ++ patientId ++ "/tests" ∧
    (Api.deletePatientCall patientId).method = "DELETE" ∧
    (Api.deletePatientCall patientId).endpoint = "/patients/" ++ patientId ∧
    VideoRecording.uploadVideoCall
      = { url := "http://localhost:8000/upload-video/", method := "POST" } ∧
    UseApiStatus.healthCall
      = { url := "http://localhost:8000/health", method := "GET" } :=
  ⟨rfl, rfl, rfl, rfl, rfl, rfl, rfl, rfl, rfl, rfl⟩

/-- C10: getPatients defaults its pagination to skip 0 and limit 100, so a
call without arguments requests /patients/?skip=0&limit=100; in general
the endpoint interpolates both parameters. -/
theorem getPatients_default_pagination (skip limit : Nat) :
    Api.getPatientsCall
      = { endpoint := "/patients/?skip=0&limit=100", method := "GET",
          body := none } ∧
    (Api.getPatientsCall skip limit).endpoint
      = "/patients/?skip=" ++ Nat.repr skip ++ "&limit=" ++ Nat.repr limit :=
  ⟨by decide, rfl⟩

/-- C6: the recording counter is timer-driven and gated: a tick adds one
exactly when recording and not paused, a tick changes nothing when
stopped or paused, and both handleStartRecording and handleReset reset
the counter to zero. -/
theorem recording_timer_gated (sel : List String) (s : VideoRecording.RecState)
    (streamOk : Bool) :
    ((VideoRecording.recStep sel VideoRecording.RecEvent.tick s).recordingTime
      = if s.isRecording && !s.isPaused then s.recordingTime + 1
        else s.recordingTime) ∧
    (s.isRecording = false ∨ s.isPaused = true →
      (VideoRecording.recStep sel VideoRecording.RecEvent.tick s).recordingTime
        = s.recordingTime) ∧
    (VideoRecording.recStep sel
      (VideoRecording.RecEvent.startRecording streamOk) s).recordingTime = 0 ∧
    (VideoRecording.recStep sel VideoRecording.RecEvent.reset s).recordingTime
      = 0 := by
  refine ⟨?_, ?_, rfl, rfl⟩
  · by_cases h : s.isRecording && !s.isPaused <;>
      simp [VideoRecording.recStep, h]
  · intro h
    have hgate : (s.isRecording && !s.isPaused) = false := by
      obtain h | h := h <;> simp [h]
    simp [VideoRecording.recStep, hgate]

/-- Witness for C6 at a concrete paused state. -/
theorem recording_timer_gated_witness :
    ((VideoRecording.recStep ["palm-open"] VideoRecording.RecEvent.tick
        { currentTestIndex := 0, isRecording := true, isPaused := true,
          recordingTime := 7, completedTests := [], recorderReady := true }).recordingTime
      = if (true && !true) then 7 + 1 else 7) ∧
    (true = false ∨ true = true →
      (VideoRecording.recStep ["palm-open"] VideoRecording.RecEvent.tick
        { currentTestIndex := 0, isRecording := true, isPaused := true,
          recordingTime := 7, completedTests := [], recorderReady := true }).recordingTime
        = 7) ∧
    (VideoRecording.recStep ["palm-open"]
      (VideoRecording.RecEvent.startRecording true)
      { currentTestIndex := 0, isRecording := true, isPaused := true,
        recordingTime := 7, completedTests := [], recorderReady := true }).recordingTime
      = 0 ∧
    (VideoRecording.recStep ["palm-open"] VideoRecording.RecEvent.reset
      { currentTestIndex := 0, isRecording := true, isPaused := true,
        recordingTime := 7, completedTests := [], recorderReady := true }).recordingTime
      = 0 :=
  recording_timer_gated ["palm-open"]
    { currentTestIndex := 0, isRecording := true, isPaused := true,
      recordingTime := 7, completedTests := [], recorderReady := true } true

/-- C2: every submission with an empty required field (firstName,
lastName, recordNumber, age or severity) makes each of the three patient
forms show the destructive Validation Error toast and return before any
HTTP request, leaving the patient data unchanged. -/
theorem form_validation_rejects_missing (pf : JsPlatform) (isEditing : Bool)
    (id : String) (f : FormState) (net : Api.FetchOutcome)
    (q : PatientList.QuickFormState) (patients : List Api.FrontendPatient)
    (hf : f.firstName = "" ∨ f.lastName = "" ∨ f.recordNumber = "" ∨
          f.age = "" ∨ f.severity = "")
    (hq : q.firstName = "" ∨ q.lastName = "" ∨ q.recordNumber = "" ∨
          q.age = "" ∨ q.severity = "") :
    PatientForm.handleSubmit pf isEditing id f net
      = Except.ok { toasts := [validationToast], requests := [],
                    navigatedTo := none } ∧
    PatientFormV2.handleSubmit pf isEditing id f net
      = { toasts := [validationToast], requests := [], navigatedTo := none,
          loading := false } ∧
    PatientList.handleQuickSubmit pf q patients
      = { toasts := [validationToast], patients := patients,
          modalOpen := true, form := q } := by
  have hmf : missingRequired f = true := by
    unfold missingRequired
    obtain h | h | h | h | h := hf <;> simp [h]
  have hmq : PatientList.missingRequiredQuick q = true := by
    unfold PatientList.missingRequiredQuick
    obtain h | h | h | h | h := hq <;> simp [h]
  refine ⟨?_, ?_, ?_⟩
  · unfold PatientForm.handleSubmit
    rw [if_pos hmf]
  · unfold PatientFormV2.handleSubmit
    rw [if_pos hmf]
  · unfold PatientList.handleQuickSubmit
    rw [if_pos hmq]

/-- Witness for C2: a submission whose firstName is empty. -/
theorem form_validation_rejects_missing_witness :
    PatientForm.handleSubmit jsPlatform0 false "P9"
        { firstName := "", lastName := "Smith", recordNumber := "P001",
          age := "65", height := "", weight := "", labResults := "",
          doctorNotes := "", severity := "low" }
        (Api.FetchOutcome.reject "network down")
      = Except.ok { toasts := [validationToast], requests := [],
                    navigatedTo := none } ∧
    PatientFormV2.handleSubmit jsPlatform0 false "P9"
        { firstName := "", lastName := "Smith", recordNumber := "P001",
          age := "65", height := "", weight := "", labResults := "",
          doctorNotes := "", severity := "low" }
        (Api.FetchOutcome.reject "network down")
      = { toasts := [validationToast], requests := [], navigatedTo := none,
          loading := false } ∧
    PatientList.handleQuickSubmit jsPlatform0
        { firstName := "", lastName := "Smith", recordNumber := "P001",
          age := "65", severity := "Mild" } []
      = { toasts := [validationToast], patients := [], modalOpen := true,
          form := { firstName := "", lastName := "Smith",
                    recordNumber := "P001", age := "65",
                    severity := "Mild" } } :=
  form_validation_rejects_missing jsPlatform0 false "P9"
    { firstName := "", lastName := "Smith", recordNumber := "P001",
      age := "65", height := "", weight := "", labResults := "",
      doctorNotes := "", severity := "low" }
    (Api.FetchOutcome.reject "network down")
    { firstName := "", lastName := "Smith", recordNumber := "P001",
      age := "65", severity := "Mild" } []
    (Or.inl rfl) (Or.inl rfl)

/-- C3: ApiService.request performs exactly one fetch on every path, never
propagates an exception (it is a total function into ApiResponse), returns
success with the parsed body on an OK response, and failure with an error
message on a fetch rejection, an unparseable OK body, or a non-OK
response. -/
theorem request_error_handling (pf : JsPlatform) (baseUrl endpoint : String)
    (out : Api.FetchOutcome) :
    (Api.request pf baseUrl endpoint out).2 = 1 ∧
    (∀ st v, out = Api.FetchOutcome.resp true st (Except.ok v) →
      (Api.request pf baseUrl endpoint out).1
        = { success := true, data := some v, error := none }) ∧
    (∀ msg, out = Api.FetchOutcome.reject msg →
      (Api.request pf baseUrl endpoint out).1
        = { success := false, data := none, error := some msg }) ∧
    (∀ st em, out = Api.FetchOutcome.resp true st (Except.error em) →
      (Api.request pf baseUrl endpoint out).1
        = { success := false, data := none, error := some em }) ∧
    (∀ st body, out = Api.FetchOutcome.resp false st body →
      (Api.request pf baseUrl endpoint out).1.success = false ∧
      ((Api.request pf baseUrl endpoint out).1.error).isSome = true) := by
  refine ⟨rfl, ?_, ?_, ?_, ?_⟩
  · intro st v h
    subst h
    rfl
  · intro msg h
    subst h
    rfl
  · intro st em h
    subst h
    rfl
  · intro st body h
    subst h
    exact ⟨rfl, rfl⟩

/-- Witness for C3 on a successful response and on a rejected fetch. -/
theorem request_error_handling_witness :
    (Api.request jsPlatform0 "http://localhost:8000" "/health"
        (Api.FetchOutcome.resp true 200 (Except.ok JsonVal.null))).1
      = { success := true, data := some JsonVal.null, error := none } ∧
    (Api.request jsPlatform0 "http://localhost:8000" "/health"
        (Api.FetchOutcome.reject "Failed to fetch")).1
      = { success := false, data := none, error := some "Failed to fetch" } :=
  ⟨(request_error_handling jsPlatform0 "http://localhost:8000" "/health"
      (Api.FetchOutcome.resp true 200 (Except.ok JsonVal.null))).2.1 200
      JsonVal.null rfl,
   (request_error_handling jsPlatform0 "http://localhost:8000" "/health"
      (Api.FetchOutcome.reject "Failed to fetch")).2.2.1 "Failed to fetch" rfl⟩

/-- The format the specification describes for formatTime: minutes and
seconds of the given second count, rendered in decimal and left-padded
with '0' to at least two characters (List.leftpad), joined by a colon. -/
def formatTimeSpecified (s : Nat) : String :=
  String.mk (List.leftpad 2 '0' (Nat.repr (s / 60)).data) ++ ":" ++
  String.mk (List.leftpad 2 '0' (Nat.repr (s % 60)).data)

/-- String.mk is a left inverse of String.data. -/
theorem string_mk_data (s : String) : String.mk s.data = s := by
  cases s
  rfl

/-- padStart with a single pad character is List.leftpad on the character
data. -/
theorem padStart_eq_leftpad (n : Nat) (c : Char) (s : String) :
    VideoRecording.padStart n c s = String.mk (List.leftpad n c s.data) := by
  unfold VideoRecording.padStart List.leftpad
  by_cases h : n ≤ s.length
  · rw [if_pos h]
    have hz : n - s.data.length = 0 := Nat.sub_eq_zero_of_le h
    rw [hz]
    simp [string_mk_data]
  · rw [if_neg h]
    apply String.ext
    rw [String.data_append]
    rfl

/-- C9: formatTime renders every natural second count as MM:SS with
MM = s / 60 and SS = s % 60, each in decimal and zero-padded on the left
to at least two characters. -/
theorem formatTime_correct (s : Nat) :
    VideoRecording.formatTime s = formatTimeSpecified s := by
  unfold VideoRecording.formatTime formatTimeSpecified
  dsimp only
  rw [padStart_eq_leftpad, padStart_eq_leftpad]

/-- A backend patient that carries only a name, for exercising the name
conversion on concrete inputs. -/
def nameOnlyPatient (nm : String) : Api.BackendPatient :=
  { patient_id := none, name := some nm, age := none, height := none,
    weight := none, lab_results := none, doctors_notes := none,
    severity := some "low" }

/-- Neither end of the character list is a character that
String.prototype.trim removes. -/
def noEdgeJsWhitespace (l : List Char) : Bool :=
  (l.head?.all fun c => !jsWhitespaceChar c) &&
  (l.getLast?.all fun c => !jsWhitespaceChar c)

/-- `x || ''` is the identity on strings. -/
theorem jsOr_empty_right (s : String) : jsOr s "" = s := by
  unfold jsOr
  split_ifs with h
  · exact h.symm
  · rfl

/-- dropWhile strips nothing from a list whose head the predicate
rejects. -/
theorem dropWhile_of_head_not_ws (l : List Char)
    (h : (l.head?.all fun c => !jsWhitespaceChar c) = true) :
    l.dropWhile jsWhitespaceChar = l := by
  cases l with
  | nil => rfl
  | cons a t =>
    simp only [List.head?_cons, Option.all_some, Bool.not_eq_true'] at h
    simp [List.dropWhile_cons, h]

/-- trim leaves a list with whitespace-free ends unchanged. -/
theorem jsTrimList_eq_self (l : List Char) (h : noEdgeJsWhitespace l = true) :
    jsTrimList l = l := by
  obtain ⟨hh, hl⟩ := Bool.and_eq_true_iff.mp h
  unfold jsTrimList jsTrimLeftList jsTrimRightList
  rw [dropWhile_of_head_not_ws l hh,
      dropWhile_of_head_not_ws l.reverse (by rw [List.head?_reverse]; exact hl),
      List.reverse_reverse]

/-- trim of a whitespace-free-ended list with one space appended gives the
list back. -/
theorem jsTrimList_append_space (l : List Char)
    (h : noEdgeJsWhitespace l = true) :
    jsTrimList (l ++ [' ']) = l := by
  obtain ⟨hh, hl⟩ := Bool.and_eq_true_iff.mp h
  cases l with
  | nil => rfl
  | cons a t =>
    unfold jsTrimList jsTrimLeftList jsTrimRightList
    rw [dropWhile_of_head_not_ws ((a :: t) ++ [' ']) (by simpa using hh)]
    rw [List.reverse_concat' (a :: t) ' ']
    rw [List.dropWhile_cons, if_pos (by decide)]
    rw [dropWhile_of_head_not_ws (a :: t).reverse
        (by rw [List.head?_reverse]; exact hl)]
    rw [List.reverse_reverse]

/-- Splitting a whitespace-free-ended character list at spaces, then
rebuilding `first ++ ' ' ++ join(rest)` and trimming, restores the
list. -/
theorem splitOn_space_trim_roundtrip (l : List Char)
    (h : noEdgeJsWhitespace l = true) :
    jsTrimList ((l.splitOn ' ').headD [] ++ ' ' ::
        List.intercalate [' '] ((l.splitOn ' ').drop 1)) = l := by
  have hne : l.splitOn ' ' ≠ [] := List.splitOnP_ne_nil _ _
  obtain ⟨a, t, hsplit⟩ := List.exists_cons_of_ne_nil hne
  have hint : List.intercalate [' '] (l.splitOn ' ') = l :=
    List.intercalate_splitOn l ' '
  rw [hsplit] at hint
  rw [hsplit]
  simp only [List.headD_cons, List.drop_one, List.tail_cons]
  cases t with
  | nil =>
    have ha : a = l := by simpa [List.intercalate, List.intersperse] using hint
    subst ha
    have := jsTrimList_append_space a h
    simpa [List.intercalate, List.intersperse] using this
  | cons b t2 =>
    have hi2 : List.intercalate [' '] (a :: b :: t2)
        = a ++ [' '] ++ List.intercalate [' '] (b :: t2) := by
      simp [List.intercalate, List.intersperse]
    rw [hi2] at hint
    have hl2 : a ++ ' ' :: List.intercalate [' '] (b :: t2) = l := by
      rw [← hint]
      simp
    rw [hl2]
    exact jsTrimList_eq_self l h

/-- C8 counterexample: the backend name "\ta" (a tab then a letter) has no
leading or trailing space, yet converting it to the frontend shape and
back yields "a": trim also strips the tab, so the round trip as claimed
fails. -/
theorem name_roundtrip_counterexample :
    ("\ta" : String).data.head? ≠ some ' ' ∧
    ("\ta" : String).data.getLast? ≠ some ' ' ∧
    (Api.convertFrontendToBackend jsPlatform0
        (Api.convertBackendToFrontend jsPlatform0 (nameOnlyPatient "\ta"))).name
      ≠ "\ta" := by
  refine ⟨by decide, by decide, by decide⟩

/-- C8 (amended): for every backend patient whose name has no leading or
trailing whitespace (in the sense of String.prototype.trim, not just no
spaces), splitting into firstName/lastName and rejoining with
convertFrontendToBackend restores the original name string. -/
theorem name_split_join_roundtrip (pf : JsPlatform) (p : Api.BackendPatient)
    (nm : String) (hname : p.name = some nm)
    (hedge : noEdgeJsWhitespace nm.data = true) :
    (Api.convertFrontendToBackend pf (Api.convertBackendToFrontend pf p)).name
      = nm := by
  have hfirst : (Api.convertBackendToFrontend pf p).firstName
      = String.mk ((nm.data.splitOn ' ').headD []) := by
    simp [Api.convertBackendToFrontend, hname, jsOr_empty_right]
  have hlast : (Api.convertBackendToFrontend pf p).lastName
      = String.mk (List.intercalate [' '] ((nm.data.splitOn ' ').drop 1)) := by
    simp [Api.convertBackendToFrontend, hname, jsOr_empty_right]
  have hn : (Api.convertFrontendToBackend pf
        (Api.convertBackendToFrontend pf p)).name
      = jsTrim (jsOr (Api.convertBackendToFrontend pf p).firstName "" ++ " " ++
          jsOr (Api.convertBackendToFrontend pf p).lastName "") := rfl
  rw [hn, jsOr_empty_right, jsOr_empty_right, hfirst, hlast]
  apply String.ext
  show jsTrimList (String.mk ((nm.data.splitOn ' ').headD []) ++ " " ++
      String.mk (List.intercalate [' '] ((nm.data.splitOn ' ').drop 1))).data
    = nm.data
  rw [String.data_append, String.data_append]
  have hdata : (String.mk ((nm.data.splitOn ' ').headD [])).data ++
        (" " : String).data ++
        (String.mk (List.intercalate [' '] ((nm.data.splitOn ' ').drop 1))).data
      = (nm.data.splitOn ' ').headD [] ++ ' ' ::
          List.intercalate [' '] ((nm.data.splitOn ' ').drop 1) := by
    simp
  rw [hdata]
  exact splitOn_space_trim_roundtrip nm.data hedge

/-- Witness for the amended C8 at the name "John Smith". -/
theorem name_split_join_roundtrip_witness :
    (Api.convertFrontendToBackend jsPlatform0
        (Api.convertBackendToFrontend jsPlatform0
          (nameOnlyPatient "John Smith"))).name = "John Smith" :=
  name_split_join_roundtrip jsPlatform0 (nameOnlyPatient "John Smith")
    "John Smith" rfl (by decide)

end SSLPD
